import Mathlib

/-!
Verification of the PKCE single-sign-on authentication engine
(`src/services/authService.ts`, `src/utils/pkce.ts`, `src/components/Callback.tsx`).

The browser session storage is modelled as a record `Store` with one field per
key the service uses.  JavaScript `sessionStorage.getItem` returns `null` for a
missing key, modelled by `Option String`; the expiry entry is stored in the
source as the decimal string of a millisecond timestamp and read back with
`parseInt`, which round-trips, so it is modelled directly as `Option Int`.

Network I/O is modelled by oracle parameters: each operation receives the
outcome of the fetches it may perform (transport rejection, non-success HTTP
response with a parsed body, success with a parsed body) and returns, besides
its result, the updated store and the list of network requests it issued.
Errors are the source's `throw new Error(...)` message strings carried in
`Except String`.
-/

namespace AuthService

/-- JavaScript truthiness of a `sessionStorage.getItem` / `URLSearchParams.get`
result: `null` and the empty string are falsy, every other string is truthy. -/
def jsTruthy : Option String → Bool
  | none => false
  | some s => s ≠ ""

/-- The per-tab session store: one field per `sessionStorage` key used by the
service (`code_verifier`, `oauth_state`, `access_token`, `refresh_token`,
`token_expires_at`, `id_token`). -/
structure Store where
  code_verifier : Option String
  oauth_state : Option String
  access_token : Option String
  refresh_token : Option String
  token_expires_at : Option Int
  id_token : Option String
deriving Repr, DecidableEq

/-- A store with no entries, as in a fresh browser tab. -/
def Store.empty : Store :=
  ⟨none, none, none, none, none, none⟩

/-- The body of a successful token-endpoint response
(`TokenResponse` in `authService.ts`; `id_token` is read off the parsed JSON
as `(tokens as any).id_token`, hence optional). -/
structure TokenResponse where
  access_token : String
  refresh_token : String
  expires_in : Nat
  token_type : String
  scope : String
  id_token : Option String
deriving Repr, DecidableEq

/-- The body of a successful userinfo response (`UserInfo` in
`authService.ts`). -/
structure UserInfo where
  sub : String
  email : String
  email_verified : Bool
  name : String
  preferred_username : String
  given_name : Option String
  family_name : Option String
deriving Repr, DecidableEq

/-- Outcome of a `fetch` against the token endpoint, as observed by the
service: the promise may reject at the transport level, or resolve to a
response that is non-success (carrying the parsed error body's optional
`error_description` and the response's `statusText`), or success whose JSON
body fails to parse, or success with a parsed `TokenResponse`. -/
inductive TokenFetchResult where
  | transportError
  | respErr (error_description : Option String) (statusText : String)
  | respOkBadJson
  | respOk (tokens : TokenResponse)
deriving Repr, DecidableEq

/-- Outcome of a `fetch` against the userinfo endpoint. -/
inductive UserFetchResult where
  | transportError
  | respErr (statusText : String)
  | respOkBadJson
  | respOk (userInfo : UserInfo)
deriving Repr, DecidableEq

/-- `true` exactly when `getUserInfo` run against this outcome throws. -/
def UserFetchResult.isErrCase : UserFetchResult → Bool
  | .respOk _ => false
  | _ => true

/-- `true` exactly when a token fetch with this outcome makes the requesting
operation throw: transport rejection, non-success response, or a success
whose JSON body fails to parse. -/
def TokenFetchResult.isErrCase : TokenFetchResult → Bool
  | .respOk _ => false
  | _ => true

/-- The network requests an operation can issue. -/
inductive NetCall where
  | tokenExchange
  | userinfo
  | refresh
  | revoke
deriving Repr, DecidableEq

/-- `storeTokens` (authService.ts lines 276-283): persists the access and
refresh tokens, the absolute expiry instant `Date.now() + expires_in * 1000`,
and the ID token when the parsed body carries a truthy one. -/
def storeTokens (tokens : TokenResponse) (now : Int) (st : Store) : Store :=
  let st1 := { st with
    access_token := some tokens.access_token,
    refresh_token := some tokens.refresh_token,
    token_expires_at := some (now + (tokens.expires_in : Int) * 1000) }
  if jsTruthy tokens.id_token then { st1 with id_token := tokens.id_token } else st1

/-- `clearTokens` (authService.ts lines 293-297): removes `access_token`,
`refresh_token` and `token_expires_at`.  It does not touch `id_token`. -/
def clearTokens (st : Store) : Store :=
  { st with access_token := none, refresh_token := none, token_expires_at := none }

/-- `isTokenExpired` (authService.ts lines 300-306): true when no expiry entry
is stored, or when `Date.now()` strictly exceeds the stored instant minus a
30-second buffer. -/
def isTokenExpired (now : Int) (st : Store) : Bool :=
  match st.token_expires_at with
  | none => true
  | some expiresAt => decide (expiresAt - 30000 < now)

/-- `getUserInfo` (authService.ts lines 157-177): one userinfo fetch; a
non-success response throws an inner message which the surrounding catch
rewraps, so every non-`respOk` outcome surfaces the generic message. -/
def getUserInfo (_accessToken : String) (f : UserFetchResult) : Except String UserInfo :=
  match f with
  | .respOk u => .ok u
  | _ => .error "Failed to fetch user information"

/-- The message built at authService.ts line 145 for a non-success
token-exchange response: the provider's `error_description` when truthy,
otherwise the response's `statusText`. -/
def tokenExchangeInnerError (error_description : Option String) (statusText : String) : String :=
  "Token exchange failed: " ++
    (if jsTruthy error_description then error_description.getD "" else statusText)

/-- `exchangeCodeForTokens` (authService.ts lines 118-154): requires a truthy
persisted code verifier (throws before any fetch otherwise); then one token
fetch.  The inner throw for a non-success response (line 145, message
`tokenExchangeInnerError`) is caught by the function's own catch (line 150)
and rethrown as a generic message, as are transport and JSON-parse failures. -/
def exchangeCodeForTokens (_code : String) (st : Store) (f : TokenFetchResult) :
    Except String TokenResponse × List NetCall :=
  if jsTruthy st.code_verifier then
    match f with
    | .respOk tokens => (.ok tokens, [.tokenExchange])
    | _ => (.error "Failed to exchange authorization code for tokens", [.tokenExchange])
  else
    (.error "Code verifier not found", [])

/-- The query parameters of the callback URL, each `null` when absent. -/
structure Url where
  error : Option String
  error_description : Option String
  code : Option String
  state : Option String
deriving Repr, DecidableEq

/-- The message thrown at authService.ts line 85 when the provider delivered
an `error` parameter. -/
def providerDeniedMsg (url : Url) : String :=
  "Authentication failed: " ++ url.error.getD "" ++
    (if jsTruthy url.error_description then " - " ++ url.error_description.getD "" else "")

/-- The synchronous prefix of `handleCallback` (authService.ts lines 77-96):
parameter parsing, the provider-error check, the missing-code-or-state check
and the CSRF state comparison, in source order.  It reads the URL and the
store but writes neither.  On success it yields the authorization code. -/
def handleCallbackPhase1 (url : Url) (st : Store) : Except String String :=
  if jsTruthy url.error then
    .error (providerDeniedMsg url)
  else if !jsTruthy url.code || !jsTruthy url.state then
    .error "Missing authorization code or state parameter"
  else if st.oauth_state ≠ url.state then
    .error "Invalid state parameter - possible CSRF attack"
  else
    .ok (url.code.getD "")

/-- `handleCallback` (authService.ts lines 76-115), run to completion: the
synchronous checks, then the code exchange, then the userinfo fetch; only
when both succeed are `code_verifier` and `oauth_state` removed and the
tokens stored.  Returns the result, the final store and the issued requests. -/
def handleCallback (url : Url) (st : Store) (exF : TokenFetchResult)
    (uF : UserFetchResult) (now : Int) :
    Except String (TokenResponse × UserInfo) × Store × List NetCall :=
  match handleCallbackPhase1 url st with
  | .error e => (.error e, st, [])
  | .ok code =>
    let ex := exchangeCodeForTokens code st exF
    match ex.1 with
    | .error e => (.error e, st, ex.2)
    | .ok tokens =>
      match getUserInfo tokens.access_token uF with
      | .error e => (.error e, st, ex.2 ++ [.userinfo])
      | .ok userInfo =>
        let st1 := storeTokens tokens now
          { st with code_verifier := none, oauth_state := none }
        (.ok (tokens, userInfo), st1, ex.2 ++ [.userinfo])

/-- `refreshToken` (authService.ts lines 180-216): a falsy stored refresh
token throws `No refresh token available` before the try block, so that
message propagates unwrapped and no fetch is issued.  Otherwise one refresh
fetch: a non-success response clears the stored tokens and throws, and every
failure inside the try (including transport rejection, which clears nothing)
is rewrapped by the catch into the generic message; success stores the new
token set. -/
def refreshToken (st : Store) (f : TokenFetchResult) (now : Int) :
    Except String TokenResponse × Store × List NetCall :=
  if jsTruthy st.refresh_token then
    match f with
    | .transportError => (.error "Failed to refresh access token", st, [.refresh])
    | .respErr _ _ => (.error "Failed to refresh access token", clearTokens st, [.refresh])
    | .respOkBadJson => (.error "Failed to refresh access token", st, [.refresh])
    | .respOk tokens => (.ok tokens, storeTokens tokens now st, [.refresh])
  else
    (.error "No refresh token available", st, [])

/-- The tail of `getCurrentUser` after the optional refresh (authService.ts
lines 318-321): re-read the access token, return `null` when it is falsy,
otherwise fetch the user info, the catch turning a failure into `null`. -/
def getCurrentUserTail (st : Store) (calls : List NetCall) (uF : UserFetchResult) :
    Option UserInfo × Store × List NetCall :=
  match st.access_token with
  | none => (none, st, calls)
  | some token =>
    if token = "" then (none, st, calls)
    else
      match getUserInfo token uF with
      | .error _ => (none, st, calls ++ [.userinfo])
      | .ok u => (some u, st, calls ++ [.userinfo])

/-- `getCurrentUser` (authService.ts lines 309-326): the whole body sits in a
try whose catch returns `null`, so no error escapes.  A falsy stored access
token returns `null` at once; an expired token triggers one `refreshToken`,
whose failure is caught (leaving whatever store that failure produced);
finally the userinfo fetch runs against the re-read token. -/
def getCurrentUser (st : Store) (now : Int) (rF : TokenFetchResult) (uF : UserFetchResult) :
    Option UserInfo × Store × List NetCall :=
  if jsTruthy st.access_token then
    if isTokenExpired now st then
      match refreshToken st rF now with
      | (.error _, st1, c1) => (none, st1, c1)
      | (.ok _, st1, c1) => getCurrentUserTail st1 c1 uF
    else
      getCurrentUserTail st [] uF
  else
    (none, st, [])

/-- The parameters of the logout redirect URL (authService.ts lines 267-272). -/
structure LogoutRedirect where
  id_token_hint : Option String
  post_logout_redirect_uri : String
deriving Repr, DecidableEq

/-- `logout` (authService.ts lines 241-273): reads the stored refresh and ID
tokens; when the refresh token is truthy it issues a best-effort revoke
request whose outcome (`revokeOk`) is ignored (the catch only logs); then
`clearTokens`; then redirects to the provider's logout endpoint with
`id_token_hint` when the ID token is truthy and the application origin as
`post_logout_redirect_uri`. -/
def logout (st : Store) (origin : String) (_revokeOk : Bool) :
    Store × List NetCall × LogoutRedirect :=
  let idToken := st.id_token
  let calls := if jsTruthy st.refresh_token then [NetCall.revoke] else []
  let st1 := clearTokens st
  (st1, calls,
    { id_token_hint := if jsTruthy idToken then idToken else none,
      post_logout_redirect_uri := origin })

/-!
Cooperative-interleaving model of duplicate `handleCallback` invocations.

The source runs single-threaded: an invocation of `handleCallback` executes
synchronously from its entry until the `await fetch` inside
`exchangeCodeForTokens`, issuing the token-exchange request immediately
before suspending.  Nothing in that prefix writes to the URL or to the
session store (the first write is the cleanup at line 105, after both
awaits), so a second invocation started while the first is suspended
observes exactly the same URL and store.  `startStep` models that prefix:
given the shared world it either fails one of the synchronous checks (no
request issued) or issues the token-exchange request and suspends.
-/

/-- The world shared by overlapping `handleCallback` invocations: the
callback URL, the session store, and the log of issued requests. -/
structure World where
  url : Url
  store : Store
  calls : List NetCall
deriving Repr, DecidableEq

/-- Run one `handleCallback` invocation from its entry to its first
suspension point: the synchronous checks of `handleCallbackPhase1`, then the
code-verifier read at the top of `exchangeCodeForTokens`, then — when all
pass — the token-exchange fetch is issued.  Returns whether the invocation
reached the fetch, and the world after this step. -/
def startStep (w : World) : Bool × World :=
  match handleCallbackPhase1 w.url w.store with
  | .error _ => (false, w)
  | .ok _ =>
    if jsTruthy w.store.code_verifier then
      (true, { w with calls := w.calls ++ [.tokenExchange] })
    else
      (false, w)

/-- One run of the `Callback` component's effect body (Callback.tsx lines
12-13 and 30): if the `hasRun` ref is already set the effect returns without
calling `handleCallback`; otherwise it sets the ref and invokes
`handleCallback`, whose first step is `startStep`.  Returns the new ref value
and the world after the invocation's first step. -/
def callbackEffectRun (hasRun : Bool) (w : World) : Bool × World :=
  if hasRun then (hasRun, w)
  else (true, (startStep w).2)

end AuthService

namespace Pkce

/-- The unreserved character set used by `generateCodeVerifier`
(pkce.ts, shown at KEYCLOAK_SSO_REACT_GUIDE.md lines 54-63): the 66
characters `[A-Za-z0-9-._~]`. -/
def charset : String :=
  "ABCDEFGHIJKLMNOPQRSTUVWXYZabcdefghijklmnopqrstuvwxyz0123456789-._~"

/-- `generateCodeVerifier` (pkce.ts): draws `length` random bytes
(`randomValues`, each in 0..255 as filled by `crypto.getRandomValues` into a
`Uint8Array`) and maps byte `i` to `charset.charAt(randomValues[i] %
charset.length)`. -/
def generateCodeVerifier (length : Nat) (randomValues : Nat → Fin 256) : String :=
  String.mk ((List.range length).map fun i =>
    charset.data.getD ((randomValues i).val % charset.data.length) ' ')

/-- `generateCodeVerifier()` called with no argument: the declared default for
`length` is 128. -/
def generateCodeVerifierDefault (randomValues : Nat → Fin 256) : String :=
  generateCodeVerifier 128 randomValues

end Pkce

/-- Substring test: `containsSub needle hay` is true exactly when `needle`
occurs contiguously in `hay`.  Used to state that an error message carries a
provider-supplied description. -/
def containsSub (needle hay : String) : Bool :=
  hay.data.tails.any fun t => needle.data.isPrefixOf t

/-- Fixture: a store as `initiateLogin` leaves it, with a persisted state
nonce `"abc"` and code verifier `"ver0"`. -/
def cbStore : AuthService.Store :=
  { AuthService.Store.empty with oauth_state := some "abc", code_verifier := some "ver0" }

/-- Fixture: a callback URL delivering a valid code `"code0"` and the state
`"abc"` matching `cbStore`. -/
def cbUrl : AuthService.Url :=
  { error := none, error_description := none, code := some "code0", state := some "abc" }

open AuthService

/-- Projection of `storeTokens` through its ID-token branch: the stored expiry
instant is `now + expires_in * 1000` in either case. -/
theorem storeTokens_token_expires_at (tk : TokenResponse) (now : Int) (st : Store) :
    (storeTokens tk now st).token_expires_at = some (now + (tk.expires_in : Int) * 1000) := by
  simp only [storeTokens]
  split <;> rfl

/-- C1 (counterexample): `handleCallback` itself carries no one-shot latch.
Two invocations overlapping cooperatively — the second starting while the
first is suspended at the token-exchange fetch, hence observing the same URL
and store, since the prefix writes neither — each issue a token-exchange
request: the delivered code is submitted twice, refuting "the second
invocation triggers no second token-exchange network call, with the guard
located at the Auth Service boundary itself". -/
theorem overlapping_handleCallback_double_exchange :
    ((startStep (startStep ⟨cbUrl, cbStore, []⟩).2).2.calls =
      [NetCall.tokenExchange, NetCall.tokenExchange]) ∧
    ¬ (startStep (startStep ⟨cbUrl, cbStore, []⟩).2).2.calls.length ≤ 1 := by decide

/-- C1 (amended): the at-most-once guard sits in the `Callback` component,
not in the Auth Service: the component's effect consults the `hasRun` ref
before invoking `handleCallback`, so a double invocation of the effect within
one callback delivery invokes `handleCallback` — and hence the token
exchange — exactly once. -/
theorem callback_component_guard_single_exchange (w : World)
    (hp : (handleCallbackPhase1 w.url w.store).isOk = true)
    (hv : jsTruthy w.store.code_verifier = true) (hc : w.calls = []) :
    (callbackEffectRun (callbackEffectRun false w).1 (callbackEffectRun false w).2).2.calls =
      [NetCall.tokenExchange] := by
  cases hph : handleCallbackPhase1 w.url w.store with
  | error e => rw [hph] at hp; simp [Except.isOk, Except.toBool] at hp
  | ok c => simp [callbackEffectRun, startStep, hph, hv, hc]

/-- C1 (witness): the component guard run on the concrete valid callback
world issues exactly one token-exchange request. -/
theorem callback_component_guard_single_exchange_witness :
    (callbackEffectRun (callbackEffectRun false ⟨cbUrl, cbStore, []⟩).1
        (callbackEffectRun false ⟨cbUrl, cbStore, []⟩).2).2.calls = [NetCall.tokenExchange] :=
  callback_component_guard_single_exchange ⟨cbUrl, cbStore, []⟩ (by decide) (by decide) rfl

/-- C2 (counterexample): a callback carrying `error=access_denied` together
with a non-empty code and a non-empty state `"xyz"` differing from the
persisted `"abc"` fails with the provider-denied message — the `error`
parameter is checked first — not with the CSRF-mismatch message the claim
requires. -/
theorem error_param_preempts_csrf_check :
    (handleCallback ⟨some "access_denied", none, some "code0", some "xyz"⟩
        { Store.empty with oauth_state := some "abc" } .transportError .transportError 0) =
      (.error "Authentication failed: access_denied",
        { Store.empty with oauth_state := some "abc" }, []) ∧
    "Authentication failed: access_denied" ≠ "Invalid state parameter - possible CSRF attack" :=
  ⟨by rfl, by decide⟩

/-- C2 (amended): for every callback with no `error` parameter, a non-empty
code and a non-empty state, if the delivered state differs from the persisted
nonce (including when none is persisted), `handleCallback` fails with the
CSRF-mismatch error, leaves the store untouched and issues no network
request. -/
theorem csrf_mismatch_fails_without_network (st : Store) (d : Option String) (c s : String)
    (exF : TokenFetchResult) (uF : UserFetchResult) (now : Int)
    (hc : c ≠ "") (hs : s ≠ "") (hm : st.oauth_state ≠ some s) :
    handleCallback ⟨none, d, some c, some s⟩ st exF uF now =
      (.error "Invalid state parameter - possible CSRF attack", st, []) := by
  simp [handleCallback, handleCallbackPhase1, jsTruthy, hc, hs, hm]

/-- C2 (witness): persisted state `"abc"`, delivered state `"xyz"`: the CSRF
failure with no network call, at a concrete input. -/
theorem csrf_mismatch_fails_without_network_witness :
    handleCallback ⟨none, none, some "code0", some "xyz"⟩
        { Store.empty with oauth_state := some "abc" } .transportError .transportError 0 =
      (.error "Invalid state parameter - possible CSRF attack",
        { Store.empty with oauth_state := some "abc" }, []) :=
  csrf_mismatch_fails_without_network _ none "code0" "xyz" _ _ 0
    (by decide) (by decide) (by decide)

/-- C3 (counterexample): a callback that passes the state comparison but
whose token exchange draws a non-success response fails with the verifier and
the state nonce still persisted — the cleanup at lines 105-106 runs only
after both fetches succeed, refuting "deleted ... regardless of whether the
subsequent token exchange or user-profile fetch succeeds or fails". -/
theorem exchange_failure_leaves_verifier :
    (handleCallback cbUrl cbStore (.respErr none "Bad Request") .transportError 0).1
      = .error "Failed to exchange authorization code for tokens" ∧
    (handleCallback cbUrl cbStore (.respErr none "Bad Request") .transportError 0).2.1.code_verifier
      = some "ver0" ∧
    (handleCallback cbUrl cbStore (.respErr none "Bad Request") .transportError 0).2.1.oauth_state
      = some "abc" :=
  ⟨by rfl, by decide, by decide⟩

/-- C3 (amended): past the state comparison, the persisted code verifier and
state nonce are deleted exactly when both the token exchange and the
user-profile fetch succeed; if either fails — the exchange by transport
rejection, non-success response or unparsable body, the profile fetch by any
failing outcome — `handleCallback` fails and the store is returned unchanged,
the verifier and nonce still present. -/
theorem cleanup_only_on_success (st : Store) (c s v : String) (d : Option String)
    (now : Int) (tk : TokenResponse) (ui : UserInfo)
    (hc : c ≠ "") (hs : s ≠ "") (hm : st.oauth_state = some s)
    (hv : st.code_verifier = some v) (hvne : v ≠ "") :
    ((handleCallback ⟨none, d, some c, some s⟩ st (.respOk tk) (.respOk ui) now).2.1.code_verifier
        = none ∧
      (handleCallback ⟨none, d, some c, some s⟩ st (.respOk tk) (.respOk ui) now).2.1.oauth_state
        = none) ∧
    (∀ (exF : TokenFetchResult) (uF : UserFetchResult), exF.isErrCase = true →
      handleCallback ⟨none, d, some c, some s⟩ st exF uF now =
        (.error "Failed to exchange authorization code for tokens", st, [.tokenExchange])) ∧
    (∀ uF : UserFetchResult, uF.isErrCase = true →
      handleCallback ⟨none, d, some c, some s⟩ st (.respOk tk) uF now =
        (.error "Failed to fetch user information", st, [.tokenExchange, .userinfo])) := by
  have hphase : handleCallbackPhase1 ⟨none, d, some c, some s⟩ st = .ok c := by
    simp [handleCallbackPhase1, jsTruthy, hc, hs, hm]
  have hjt : jsTruthy st.code_verifier = true := by simp [jsTruthy, hv, hvne]
  refine ⟨?_, ?_, ?_⟩
  · simp only [handleCallback, hphase, exchangeCodeForTokens, hjt, if_pos, getUserInfo]
    constructor
    · simp only [storeTokens]
      split <;> rfl
    · simp only [storeTokens]
      split <;> rfl
  · intro exF uF hex
    cases exF <;> simp_all [handleCallback, hphase, exchangeCodeForTokens, hjt,
      TokenFetchResult.isErrCase]
  · intro uF hu
    cases uF <;> simp_all [handleCallback, hphase, exchangeCodeForTokens, hjt, getUserInfo,
      UserFetchResult.isErrCase]

/-- C3 (witness): the amended cleanup behaviour at the concrete valid
callback fixture — cleanup on the doubly successful run, failure with the
store unchanged for every failing exchange or profile-fetch outcome. -/
theorem cleanup_only_on_success_witness :
    ((handleCallback cbUrl cbStore
        (.respOk ⟨"at0", "rt0", 300, "Bearer", "openid", none⟩)
        (.respOk ⟨"sub0", "e@x", true, "N", "pu", none, none⟩) 0).2.1.code_verifier = none ∧
      (handleCallback cbUrl cbStore
        (.respOk ⟨"at0", "rt0", 300, "Bearer", "openid", none⟩)
        (.respOk ⟨"sub0", "e@x", true, "N", "pu", none, none⟩) 0).2.1.oauth_state = none) ∧
    (∀ (exF : TokenFetchResult) (uF : UserFetchResult), exF.isErrCase = true →
      handleCallback cbUrl cbStore exF uF 0 =
        (.error "Failed to exchange authorization code for tokens", cbStore, [.tokenExchange])) ∧
    (∀ uF : UserFetchResult, uF.isErrCase = true →
      handleCallback cbUrl cbStore
          (.respOk ⟨"at0", "rt0", 300, "Bearer", "openid", none⟩) uF 0 =
        (.error "Failed to fetch user information", cbStore, [.tokenExchange, .userinfo])) :=
  cleanup_only_on_success cbStore "code0" "abc" "ver0" none 0 _
    ⟨"sub0", "e@x", true, "N", "pu", none, none⟩
    (by decide) (by decide) (by decide) (by decide) (by decide)

/-- C4 (counterexample): `logout` on a store holding ID token `"idtok123"`
leaves that entry persisted — `clearTokens` removes only `access_token`,
`refresh_token` and `token_expires_at` — refuting "the stored ID token ...
absent". -/
theorem logout_leaves_id_token :
    (logout { Store.empty with id_token := some "idtok123", refresh_token := some "rt0" }
        "https://app.example" true).1.id_token = some "idtok123" ∧
    some "idtok123" ≠ (none : Option String) := by decide

/-- C4 (amended): after every completed `logout` run, whether or not the
best-effort revoke succeeds, the access token, refresh token and expiry
entries are absent from the store before the redirect; the stored ID token
entry, however, is not removed — it keeps its prior value. -/
theorem logout_clears_token_entries (st : Store) (origin : String) (revokeOk : Bool) :
    (logout st origin revokeOk).1.access_token = none ∧
    (logout st origin revokeOk).1.refresh_token = none ∧
    (logout st origin revokeOk).1.token_expires_at = none ∧
    (logout st origin revokeOk).1.id_token = st.id_token := by
  simp [logout, clearTokens]

/-- C5: `refreshToken` with a falsy persisted refresh token fails with the
no-refresh-token message, issuing no network request and leaving the store
untouched; and on a provider non-success response it fails, with the
access-token, refresh-token and expiry entries all cleared. -/
theorem refreshToken_failure_modes (st : Store) (f : TokenFetchResult) (now : Int) :
    (jsTruthy st.refresh_token = false →
      refreshToken st f now = (.error "No refresh token available", st, [])) ∧
    (∀ d sx, jsTruthy st.refresh_token = true →
      (refreshToken st (.respErr d sx) now).1 = .error "Failed to refresh access token" ∧
      (refreshToken st (.respErr d sx) now).2.1.access_token = none ∧
      (refreshToken st (.respErr d sx) now).2.1.refresh_token = none ∧
      (refreshToken st (.respErr d sx) now).2.1.token_expires_at = none) := by
  constructor
  · intro h; simp [refreshToken, h]
  · intro d sx h; simp [refreshToken, h, clearTokens]

/-- C5 (witness): both failure modes at concrete stores. -/
theorem refreshToken_failure_modes_witness :
    refreshToken Store.empty .transportError 0
        = (.error "No refresh token available", Store.empty, []) ∧
    (refreshToken { Store.empty with refresh_token := some "rt0" }
        (.respErr none "Bad Request") 0).2.1.access_token = none :=
  ⟨(refreshToken_failure_modes Store.empty .transportError 0).1 (by decide),
   ((refreshToken_failure_modes _ .transportError 0).2 none "Bad Request" (by decide)).2.1⟩

/-- C6 (counterexample): a non-success token-exchange response carrying
provider description `"xyzzy_desc"` surfaces the generic message to the
caller; the description is not contained in it — it appears only in the inner
message of line 145, which the function's own catch discards — refuting
"carries that provider-supplied error description to the caller". -/
theorem exchange_error_description_swallowed :
    (exchangeCodeForTokens "code0" cbStore (.respErr (some "xyzzy_desc") "Bad Request")).1
      = .error "Failed to exchange authorization code for tokens" ∧
    containsSub "xyzzy_desc" "Failed to exchange authorization code for tokens" = false ∧
    containsSub "xyzzy_desc" (tokenExchangeInnerError (some "xyzzy_desc") "Bad Request") = true :=
  ⟨by rfl, by decide, by decide⟩

/-- C6 (amended): on every provider non-success response,
`exchangeCodeForTokens` fails with the generic token-exchange message,
independent of the provider's error description, which is built into the
inner message but rewrapped away before reaching the caller. -/
theorem exchange_nonsuccess_generic_error (code : String) (st : Store) (d : Option String)
    (sx : String) (h : jsTruthy st.code_verifier = true) :
    exchangeCodeForTokens code st (.respErr d sx) =
      (.error "Failed to exchange authorization code for tokens", [.tokenExchange]) := by
  simp [exchangeCodeForTokens, h]

/-- C6 (witness): the generic failure at a concrete description-carrying
response. -/
theorem exchange_nonsuccess_generic_error_witness :
    exchangeCodeForTokens "code0" cbStore (.respErr (some "xyzzy_desc") "Bad Request") =
      (.error "Failed to exchange authorization code for tokens", [.tokenExchange]) :=
  exchange_nonsuccess_generic_error "code0" cbStore (some "xyzzy_desc") "Bad Request" (by decide)

/-- C7: `isTokenExpired` is true when no expiry entry is stored; and after
storing a token set with `expires_in = 300` at time `T`, it is false at
`T + 269s` and true at `T + 271s` — the threshold is the stored instant minus
the 30-second buffer, with strict exceedance. -/
theorem isTokenExpired_buffer_boundary (T now : Int) (tk : TokenResponse) (st st' : Store) :
    isTokenExpired now { st' with token_expires_at := none } = true ∧
    isTokenExpired (T + 269000) (storeTokens { tk with expires_in := 300 } T st) = false ∧
    isTokenExpired (T + 271000) (storeTokens { tk with expires_in := 300 } T st) = true := by
  refine ⟨rfl, ?_, ?_⟩ <;>
    · simp only [isTokenExpired, storeTokens_token_expires_at]
      simp only [decide_eq_true_eq, decide_eq_false_iff_not]
      omega

/-- C8: `getCurrentUser` always yields a profile or the no-user result —
never an error; it yields no user when no truthy access token is stored, when
an attempted refresh of an expired token fails (whatever store that failure
leaves behind), and when the userinfo fetch fails. -/
theorem getCurrentUser_total_degrades (st : Store) (now : Int) (rF : TokenFetchResult)
    (uF : UserFetchResult) :
    ((getCurrentUser st now rF uF).1 = none ∨ ∃ u, (getCurrentUser st now rF uF).1 = some u) ∧
    (jsTruthy st.access_token = false → getCurrentUser st now rF uF = (none, st, [])) ∧
    (∀ e st1 c1, isTokenExpired now st = true →
      refreshToken st rF now = (.error e, st1, c1) →
      (getCurrentUser st now rF uF).1 = none) ∧
    (isTokenExpired now st = false → uF.isErrCase = true →
      (getCurrentUser st now rF uF).1 = none) := by
  refine ⟨?_, ?_, ?_, ?_⟩
  · cases hgc : (getCurrentUser st now rF uF).1 with
    | none => exact Or.inl rfl
    | some u => exact Or.inr ⟨u, rfl⟩
  · intro h; simp [getCurrentUser, h]
  · intro e st1 c1 hexp href
    by_cases hat : jsTruthy st.access_token = true
    · simp [getCurrentUser, hat, hexp, href]
    · simp only [Bool.not_eq_true] at hat
      simp [getCurrentUser, hat]
  · intro hexp hu
    by_cases hat : jsTruthy st.access_token = true
    · cases hacc : st.access_token with
      | none => simp [jsTruthy, hacc] at hat
      | some t =>
        have hne : t ≠ "" := by
          simp [jsTruthy, hacc] at hat; exact hat
        cases uF <;>
          simp_all [getCurrentUser, getCurrentUserTail, getUserInfo, UserFetchResult.isErrCase,
            jsTruthy, hacc, hexp]
    · simp only [Bool.not_eq_true] at hat
      simp [getCurrentUser, hat]

/-- C8 (witness): the degradations at concrete stores — an empty store, and a
store whose access token is set but with no expiry entry so the refresh (with
no refresh token) fails. -/
theorem getCurrentUser_total_degrades_witness :
    (getCurrentUser Store.empty 0 .transportError .transportError = (none, Store.empty, [])) ∧
    (getCurrentUser { Store.empty with access_token := some "at0" } 0 .transportError
        .transportError).1 = none :=
  ⟨(getCurrentUser_total_degrades Store.empty 0 .transportError .transportError).2.1 (by decide),
   ((getCurrentUser_total_degrades { Store.empty with access_token := some "at0" } 0
        .transportError .transportError).2.2.1 "No refresh token available"
      { Store.empty with access_token := some "at0" } [] (by decide) (by rfl))⟩

/-- C9: for every requested length ≥ 1, `generateCodeVerifier` returns a
string of exactly that length whose every character belongs to the unreserved
set, and the no-argument call uses the declared default length 128. -/
theorem generateCodeVerifier_length_charset (length : Nat) (randomValues : Nat → Fin 256)
    (h : 1 ≤ length) :
    (Pkce.generateCodeVerifier length randomValues).length = length ∧
    (∀ c ∈ (Pkce.generateCodeVerifier length randomValues).data, c ∈ Pkce.charset.data) ∧
    Pkce.generateCodeVerifierDefault randomValues = Pkce.generateCodeVerifier 128 randomValues := by
  refine ⟨?_, ?_, rfl⟩
  · show ((List.range length).map _).length = length
    simp
  · intro c hc
    have hc' : c ∈ (List.range length).map (fun i =>
        Pkce.charset.data.getD ((randomValues i).val % Pkce.charset.data.length) ' ') := hc
    rcases List.mem_map.mp hc' with ⟨i, _, rfl⟩
    have hlt : (randomValues i).val % Pkce.charset.data.length < Pkce.charset.data.length :=
      Nat.mod_lt _ (by decide)
    rw [List.getD_eq_getElem?_getD, List.getElem?_eq_getElem hlt]
    simp only [Option.getD_some]
    exact List.getElem_mem hlt

/-- C9 (witness): length and charset membership at length 3 with a constant
byte source. -/
theorem generateCodeVerifier_length_charset_witness :
    (Pkce.generateCodeVerifier 3 (fun _ => (⟨65, by decide⟩ : Fin 256))).length = 3 ∧
    (∀ c ∈ (Pkce.generateCodeVerifier 3 (fun _ => (⟨65, by decide⟩ : Fin 256))).data,
      c ∈ Pkce.charset.data) ∧
    Pkce.generateCodeVerifierDefault (fun _ => (⟨65, by decide⟩ : Fin 256)) =
      Pkce.generateCodeVerifier 128 (fun _ => (⟨65, by decide⟩ : Fin 256)) :=
  generateCodeVerifier_length_charset 3 (fun _ => (⟨65, by decide⟩ : Fin 256)) (by decide)

/-- C10: when the refresh request rejects at the transport level — no
provider response — `refreshToken` fails with an error but leaves the whole
store, in particular the access-token, refresh-token and expiry entries,
unchanged. -/
theorem refreshToken_transport_failure_preserves_store (st : Store) (now : Int)
    (h : jsTruthy st.refresh_token = true) :
    (refreshToken st .transportError now).1 = .error "Failed to refresh access token" ∧
    (refreshToken st .transportError now).2.1 = st := by
  simp [refreshToken, h]

/-- C10 (witness): the transport failure at a concrete store with a persisted
refresh token. -/
theorem refreshToken_transport_failure_preserves_store_witness :
    (refreshToken { Store.empty with refresh_token := some "rt0" } .transportError 0).1
        = .error "Failed to refresh access token" ∧
    (refreshToken { Store.empty with refresh_token := some "rt0" } .transportError 0).2.1
        = { Store.empty with refresh_token := some "rt0" } :=
  refreshToken_transport_failure_preserves_store _ 0 (by decide)
